import Mathlib

set_option maxHeartbeats 1000000

/-!
Verification of the linkplay-cli device transport layer.

This file gives a shallow embedding, in Lean, of the core operations of the
repository: the binary TCP-UART framing codec (src/linkplay_cli/tcp_uart.py),
the HTTP command channel classification (src/linkplay_cli/utils.py), device
discovery probing (src/linkplay_cli/discovery.py together with
src/linkplay_cli/config.py and src/linkplay_cli/device.py), and the
configuration registry (src/linkplay_cli/configure.py).  Bytes are modelled
as natural numbers below 256, byte strings as lists of naturals, machine
integers as naturals reduced modulo 2 ^ 32 where the wire format fixes a
width, and fallible operations as Option or Except values.
-/

namespace LinkplayCli

/-! ## UTF-8, as performed by the Python runtime

The source encodes commands with the expression bytes(command, utf-8)
(tcp_uart.py line 40) and the spec says the transported payload is UTF-8
text.  The Python codec is modelled here over Unicode scalar values. -/

/-- Encode one Unicode scalar value to UTF-8 bytes, exactly as the Python
codec does: one byte below 0x80, two bytes below 0x800, three bytes below
0x10000, four bytes otherwise. -/
def utf8EncodeChar (c : Nat) : List Nat :=
  if c < 128 then [c]
  else if c < 2048 then [192 + c / 64, 128 + c % 64]
  else if c < 65536 then [224 + c / 4096, 128 + c / 64 % 64, 128 + c % 64]
  else [240 + c / 262144, 128 + c / 4096 % 64, 128 + c / 64 % 64, 128 + c % 64]

/-- UTF-8 encoding of a list of Unicode scalar values. -/
def utf8Encode : List Nat → List Nat
  | [] => []
  | c :: cs => utf8EncodeChar c ++ utf8Encode cs

/-- Decode one UTF-8-encoded scalar value from the head of the byte stream,
with the strict validity checks of the Python codec: continuation bytes must
lie in the range 0x80 to 0xBF, overlong forms, surrogate code points and
values above 0x10FFFF are rejected.  Returns the decoded value and the
remaining bytes, or none on an invalid head sequence. -/
def utf8DecodeOne : List Nat → Option (Nat × List Nat)
  | [] => none
  | b :: bs =>
    if b < 128 then some (b, bs)
    else if b < 194 then none
    else if b < 224 then
      if 1 ≤ bs.length ∧ (128 ≤ bs.getD 0 0 ∧ bs.getD 0 0 < 192) then
        some ((b - 192) * 64 + (bs.getD 0 0 - 128), bs.drop 1)
      else none
    else if b < 240 then
      if 2 ≤ bs.length ∧ (128 ≤ bs.getD 0 0 ∧ bs.getD 0 0 < 192) ∧
          (128 ≤ bs.getD 1 0 ∧ bs.getD 1 0 < 192) then
        if 2048 ≤ (b - 224) * 4096 + (bs.getD 0 0 - 128) * 64 + (bs.getD 1 0 - 128) ∧
            ((b - 224) * 4096 + (bs.getD 0 0 - 128) * 64 + (bs.getD 1 0 - 128) < 55296 ∨
             57344 ≤ (b - 224) * 4096 + (bs.getD 0 0 - 128) * 64 + (bs.getD 1 0 - 128)) then
          some ((b - 224) * 4096 + (bs.getD 0 0 - 128) * 64 + (bs.getD 1 0 - 128), bs.drop 2)
        else none
      else none
    else if b < 245 then
      if 3 ≤ bs.length ∧ (128 ≤ bs.getD 0 0 ∧ bs.getD 0 0 < 192) ∧
          (128 ≤ bs.getD 1 0 ∧ bs.getD 1 0 < 192) ∧ (128 ≤ bs.getD 2 0 ∧ bs.getD 2 0 < 192) then
        if 65536 ≤ (b - 240) * 262144 + (bs.getD 0 0 - 128) * 4096 +
              (bs.getD 1 0 - 128) * 64 + (bs.getD 2 0 - 128) ∧
            (b - 240) * 262144 + (bs.getD 0 0 - 128) * 4096 +
              (bs.getD 1 0 - 128) * 64 + (bs.getD 2 0 - 128) < 1114112 then
          some ((b - 240) * 262144 + (bs.getD 0 0 - 128) * 4096 +
                (bs.getD 1 0 - 128) * 64 + (bs.getD 2 0 - 128), bs.drop 3)
        else none
      else none
    else none

/-- Decoding one scalar value consumes at least one byte. -/
theorem utf8DecodeOne_rest_length (l : List Nat) (c : Nat) (rest : List Nat)
    (h : utf8DecodeOne l = some (c, rest)) : rest.length < l.length := by
  cases l with
  | nil => simp [utf8DecodeOne] at h
  | cons b bs =>
    rw [utf8DecodeOne] at h
    split_ifs at h
    all_goals injection h with h2
    all_goals injection h2 with h3 h4
    all_goals subst h4
    all_goals simp only [List.length_drop, List.length_cons]
    all_goals omega

/-- Whole-stream UTF-8 decoding, driven by a fuel argument that bounds the
number of decoding steps; each step consumes at least one byte, so the
length of the stream is always enough fuel. -/
def utf8DecodeAux : Nat → List Nat → Option (List Nat)
  | _, [] => some []
  | 0, _ :: _ => none
  | fuel + 1, b :: bs =>
    match utf8DecodeOne (b :: bs) with
    | some (c, rest) => (utf8DecodeAux fuel rest).map (fun cs => c :: cs)
    | none => none

/-- Strict UTF-8 decoding of a whole byte stream, as performed by the Python
method bytes.decode with the utf-8 codec: decode scalar values one at a
time until the stream is exhausted, failing (UnicodeDecodeError, modelled
as none) as soon as one head sequence is invalid. -/
def utf8Decode (l : List Nat) : Option (List Nat) := utf8DecodeAux l.length l

/-- UTF-8 bytes of a Lean string, modelling the Python expression
bytes(command, utf-8). -/
def pyEncodeUtf8 (s : String) : List Nat :=
  utf8Encode (s.data.map Char.toNat)

/-- Decode UTF-8 bytes back to a string, modelling the Python method
bytes.decode with the utf-8 codec. -/
def pyDecodeUtf8 (b : List Nat) : Option String :=
  (utf8Decode b).map (fun cs => String.mk (cs.map Char.ofNat))

/-! ## The binary TCP-UART codec (src/linkplay_cli/tcp_uart.py)

TCP_UART_MESSAGE_STRUCT (lines 13 to 21) is a construct Struct with fields
  magic    : Const(TCP_UART_MAGIC, Bytes(4))
  length   : Rebuild(Int32ul, len_(this.payload))
  checksum : Padding(4) placeholder, later overwritten through
             Pointer(offset 8, Checksum(Int32ul, sum, this.payload))
  reserved : Padding(8)
  payload  : Bytes(this.length)
The build and parse directions are modelled separately below. -/

/-- TCP_UART_MAGIC = bytes.fromhex of 18961820 (tcp_uart.py line 9). -/
def TCP_UART_MAGIC : List Nat := [24, 150, 24, 32]

/-- tcp_uart.py line 10. -/
def NUMBER_OF_RESPONSE_BYTES_TO_READ : Nat := 4096

/-- Little-endian bytes of a 32-bit value, as construct Int32ul writes them. -/
def int32ulBytes (n : Nat) : List Nat :=
  [n % 256, n / 256 % 256, n / 65536 % 256, n / 16777216 % 256]

/-- Building an Int32ul field.  The underlying struct.pack call in the
construct library raises for values outside the 32-bit range instead of
wrapping, so the build is fallible. -/
def int32ulBuild (n : Nat) : Option (List Nat) :=
  if n < 4294967296 then some (int32ulBytes n) else none

/-- Parsing an Int32ul field from four little-endian bytes. -/
def int32ulParseBytes (b0 b1 b2 b3 : Nat) : Nat :=
  b0 + 256 * b1 + 65536 * b2 + 16777216 * b3

/-- Build direction of TCP_UART_MESSAGE_STRUCT: magic, then the payload
length as Int32ul (Rebuild), then the additive payload checksum as Int32ul
(written through the Pointer over the 4-byte placeholder at offset 8), then
8 zero reserved bytes (Padding), then the payload itself. -/
def TCP_UART_MESSAGE_STRUCT_build (payload : List Nat) : Option (List Nat) :=
  match int32ulBuild payload.length, int32ulBuild payload.sum with
  | some lengthBytes, some checksumBytes =>
      some (TCP_UART_MAGIC ++ lengthBytes ++ checksumBytes ++
            [0, 0, 0, 0, 0, 0, 0, 0] ++ payload)
  | _, _ => none

/-- Parse failures of TCP_UART_MESSAGE_STRUCT, following the spec taxonomy:
framing errors (short stream, wrong magic) and the integrity error raised by
the Checksum field when the recomputed additive sum of the payload differs
from the transmitted value. -/
inductive TcpUartParseError where
  | framingShortRead
  | framingBadMagic
  | integrityChecksumMismatch
deriving DecidableEq, Repr

/-- Parse direction of TCP_UART_MESSAGE_STRUCT: read and compare the 4
magic bytes (Const), read the Int32ul length, skip the 4 checksum bytes and
the 8 reserved bytes (Padding), read exactly length payload bytes, then the
Pointer field re-reads the transmitted checksum at offset 8 and the Checksum
field compares it with the recomputed additive sum of the payload.  Bytes
beyond the declared payload length are ignored, as construct parsing
ignores trailing input. -/
def TCP_UART_MESSAGE_STRUCT_parse : List Nat → Except TcpUartParseError (List Nat)
  | m0 :: m1 :: m2 :: m3 :: l0 :: l1 :: l2 :: l3 :: c0 :: c1 :: c2 :: c3 ::
    _ :: _ :: _ :: _ :: _ :: _ :: _ :: _ :: rest =>
    if [m0, m1, m2, m3] = TCP_UART_MAGIC then
      let msgLength := int32ulParseBytes l0 l1 l2 l3
      if rest.length < msgLength then .error .framingShortRead
      else
        let payload := rest.take msgLength
        if payload.sum = int32ulParseBytes c0 c1 c2 c3 then .ok payload
        else .error .integrityChecksumMismatch
    else .error .framingBadMagic
  | short =>
    if 4 ≤ short.length ∧ short.take 4 ≠ TCP_UART_MAGIC then
      .error .framingBadMagic
    else .error .framingShortRead

/-- The encoding half of TcpUart.run_command (tcp_uart.py line 40): the
command string is UTF-8 encoded and framed by the struct build. -/
def encodeTcpUartCommand (command : String) : Option (List Nat) :=
  TCP_UART_MESSAGE_STRUCT_build (pyEncodeUtf8 command)

/-- The decoding half of a TCP-UART exchange: parse the framed bytes and
decode the transported payload as UTF-8 text. -/
def decodeTcpUartResponse (b : List Nat) : Option String :=
  match TCP_UART_MESSAGE_STRUCT_parse b with
  | .ok payload => pyDecodeUtf8 payload
  | .error _ => none

/-- Checksum of a payload as the spec words it: the additive sum of the
payload bytes, computed mod 2 ^ 32.  This definition follows the spec text,
not the source, and is compared against the source-derived build. -/
def specChecksum (payload : List Nat) : Nat := payload.sum % 4294967296

/-- Four little-endian bytes of an integer, as the spec words it. -/
def specLittleEndian4 (n : Nat) : List Nat :=
  [n % 256, n / 256 % 256, n / 65536 % 256, n / 16777216 % 256]

/-- The encoded message as the spec words it: magic, then length, then
checksum, then 8 zero reserved bytes, then the payload, with all multi-byte
integers little-endian.  This definition follows the spec text, not the
source. -/
def specEncodeMessage (payload : List Nat) : List Nat :=
  TCP_UART_MAGIC ++ specLittleEndian4 payload.length ++
  specLittleEndian4 (specChecksum payload) ++ [0, 0, 0, 0, 0, 0, 0, 0] ++ payload

/-! ## The HTTP command channel (src/linkplay_cli/utils.py) -/

/-- An HTTP response as seen by perform_get_request: the numeric status
code and the body text. -/
structure HttpResponse where
  status : Nat
  body : String
deriving DecidableEq, Repr

/-- UNKNOWN_COMMAND_STRING (utils.py line 13). -/
def UNKNOWN_COMMAND_STRING : String := "unknown command"

/-- The two exception classes raised by perform_get_request:
LinkplayCliGetRequestFailedException (utils.py lines 39 to 40) and
LinkplayCliGetRequestUnknownCommandException (lines 43 to 44). -/
inductive GetRequestError where
  | requestFailed
  | unknownCommand
deriving DecidableEq, Repr

/-- The Python method str.lower, modelled over the ASCII case mapping. -/
def pyStrLower (s : String) : String := String.mk (s.data.map Char.toLower)

/-- perform_get_request (utils.py lines 47 to 68), as a function of the
exchanged response.  The argument none models requests.get raising a
RequestException (connection failure or timeout), which line 51 converts to
LinkplayCliGetRequestFailedException.  Line 55 raises the same failure for
any status code other than HTTPStatus.OK, that is 200.  Line 57 compares
the lower-cased body with UNKNOWN_COMMAND_STRING and raises
LinkplayCliGetRequestUnknownCommandException on a match.  Otherwise the
body is returned (the expect_json and expect_bytes variants return the same
body in parsed form and do not change the classification). -/
def perform_get_request (response : Option HttpResponse) : Except GetRequestError String :=
  match response with
  | none => .error .requestFailed
  | some r =>
    if r.status ≠ 200 then .error .requestFailed
    else if pyStrLower r.body = UNKNOWN_COMMAND_STRING then .error .unknownCommand
    else .ok r.body

/-! ## Configuration constants (src/linkplay_cli/config.py) -/

/-- config.py line 3. -/
def get_request_timeout_seconds : Nat := 5

/-- config.py line 10. -/
def http_ports : List Nat := [80]

/-- config.py line 11. -/
def tls_ports : List Nat := [4443]

/-- The attribute names the module src/linkplay_cli/config.py defines, in
source order. -/
def configModuleAttributes : List String :=
  ["get_request_timeout_seconds", "upnp_discover_timeout_message",
   "configuration_file_path", "client_certificate_path", "log_key",
   "log_chunk_size", "maximum_number_of_alarms", "http_ports", "tls_ports"]

/-- Python exceptions that the modelled fragments can raise. -/
inductive PyError where
  | attributeError
  | typeError
  | fileNotFoundError
  | permissionError
  | unpicklingError
deriving DecidableEq, Repr

/-- Reading an attribute of the config module: AttributeError when config.py
does not define the name. -/
def configGetAttr (name : String) : Except PyError Unit :=
  if configModuleAttributes.contains name then .ok () else .error .attributeError

/-! ## Devices and discovery (src/linkplay_cli/device.py and discovery.py) -/

/-- RequestProtocol (device.py line 5): the literal type of "http" and
"https". -/
inductive RequestProtocol where
  | http
  | https
deriving DecidableEq, Repr, Inhabited

/-- The Device dataclass (device.py lines 7 to 14).  The IPv4 address is
kept as its dotted string form. -/
structure Device where
  ip_address : String
  port : Nat
  protocol : RequestProtocol
  model : String
  name : String
  tcp_uart_port : Nat
deriving DecidableEq, Repr, Inhabited

/-- The field names of the Device dataclass, in declaration order
(device.py lines 7 to 14). -/
def deviceDataclassFields : List String :=
  ["ip_address", "port", "protocol", "model", "name", "tcp_uart_port"]

/-- The keyword argument names of the Device constructor calls in
discovery.py lines 32 to 34 and 41 to 43. -/
def discoveryDeviceKwargs : List String :=
  ["ip_address", "port", "protocol", "model", "name", "upnp_location",
   "tcp_uart_port"]

/-- A parsed getStatusEx status payload, with the fields discovery reads:
project, DeviceName, and the optional uart_pass_port. -/
structure GetStatusExResponse where
  project : String
  deviceName : String
  uart_pass_port : Option Nat
deriving DecidableEq, Repr

/-- One Device(...) construction in
_get_valid_linkplay_device_configuration_from_upnp_location (discovery.py
lines 32 to 34 and 41 to 43).  Python first evaluates the keyword argument
expressions: the tcp_uart_port expression reads config.default_tcp_uart_port,
an attribute config.py does not define, so an AttributeError is raised
there (the dict get method receives its default argument eagerly, whether
or not uart_pass_port is present).  Were that attribute defined, the
dataclass generated constructor would reject the upnp_location keyword,
which is not a declared Device field, with a TypeError. -/
def discoveryBuildDevice (ip : String) (port : Nat) (protocol : RequestProtocol)
    (status : GetStatusExResponse) : Except PyError Device :=
  match configGetAttr "default_tcp_uart_port" with
  | .error e => .error e
  | .ok _ =>
    if discoveryDeviceKwargs.all (fun k => deviceDataclassFields.contains k) then
      .ok { ip_address := ip, port := port, protocol := protocol,
            model := status.project, name := status.deviceName,
            tcp_uart_port := status.uart_pass_port.getD 0 }
    else .error .typeError

/-- One port loop of
_get_valid_linkplay_device_configuration_from_upnp_location (discovery.py
lines 29 to 36 for http, 38 to 45 for https).  The probe argument models
_get_linkplay_device_status (lines 20 to 24): some status when the
getStatusEx request returns a parsed payload, none when it raises
LinkplayCliGetRequestFailedException, which the except clause of the loop
catches and ignores before trying the next port.  Any other exception
propagates out of the loop. -/
def tryPortsForProtocol (probe : RequestProtocol → Nat → Option GetStatusExResponse)
    (ip : String) (protocol : RequestProtocol) :
    List Nat → Except PyError (Option Device)
  | [] => .ok none
  | port :: rest =>
    match probe protocol port with
    | some status =>
      match discoveryBuildDevice ip port protocol status with
      | .ok d => .ok (some d)
      | .error e => .error e
    | none => tryPortsForProtocol probe ip protocol rest

/-- _get_valid_linkplay_device_configuration_from_upnp_location
(discovery.py lines 27 to 47): try every configured http port first, then
every configured tls port, stopping at the first validated device; returns
ok none when every probe fails with
LinkplayCliGetRequestFailedException. -/
def getValidLinkplayDeviceConfiguration
    (probe : RequestProtocol → Nat → Option GetStatusExResponse) (ip : String) :
    Except PyError (Option Device) :=
  match tryPortsForProtocol probe ip .http http_ports with
  | .error e => .error e
  | .ok (some d) => .ok (some d)
  | .ok none => tryPortsForProtocol probe ip .https tls_ports

/-! ## The configuration registry (src/linkplay_cli/configure.py) -/

/-- The Configuration dataclass (configure.py lines 12 to 15). -/
structure Configuration where
  devices : List Device
  active_device : Option Device
deriving DecidableEq, Repr

/-- The states the persisted configuration file can be in when
load_configuration_from_file runs. -/
inductive ConfigurationFileState where
  | absent
  | unreadable
  | corrupted
  | valid (c : Configuration)
deriving DecidableEq

/-- What a successful open of the configuration file yields: either bytes
that unpickle to a Configuration, or bytes that do not. -/
inductive ConfigurationFileContents where
  | garbage
  | pickled (c : Configuration)
deriving DecidableEq

/-- Opening the configuration file for reading (configure.py line 24):
raises FileNotFoundError when the file is absent and PermissionError when
it is unreadable. -/
def openConfigurationFile : ConfigurationFileState → Except PyError ConfigurationFileContents
  | .absent => .error .fileNotFoundError
  | .unreadable => .error .permissionError
  | .corrupted => .ok .garbage
  | .valid c => .ok (.pickled c)

/-- pickle.load (configure.py line 25): raises UnpicklingError when the
record does not parse. -/
def pickleLoad : ConfigurationFileContents → Except PyError Configuration
  | .garbage => .error .unpicklingError
  | .pickled c => .ok c

/-- load_configuration_from_file (configure.py lines 22 to 28): the try
block opens the file and unpickles it; the except clause catches exactly
FileNotFoundError, returning Configuration(devices=[], active_device=None);
every other exception propagates to the caller. -/
def load_configuration_from_file (fs : ConfigurationFileState) : Except PyError Configuration :=
  match (openConfigurationFile fs).bind pickleLoad with
  | .error .fileNotFoundError => .ok { devices := [], active_device := none }
  | r => r

/-- File-level operations performed on the persisted configuration file. -/
inductive FileWriteOp where
  | truncate
  | write (data : List Nat)
deriving DecidableEq

/-- The effect of one file operation on the file contents. -/
def applyFileWriteOp : List Nat → FileWriteOp → List Nat
  | _, .truncate => []
  | current, .write data => current ++ data

/-- Contents of the file after a sequence of operations. -/
def runFileWriteOps (initial : List Nat) (ops : List FileWriteOp) : List Nat :=
  ops.foldl applyFileWriteOp initial

/-- save_configuration_to_file (configure.py lines 17 to 20) as its sequence
of file operations: open(config.configuration_file_path, wb) truncates the
persisted file in place, then pickle.dump writes the serialized record
(modelled as an opaque byte list) to the same file.  No temporary file and
no rename are involved. -/
def save_configuration_to_file_trace (record : List Nat) : List FileWriteOp :=
  [.truncate, .write record]

/-- A sequence of file operations replaces the file atomically from the
view of the caller when every intermediate state equals either the old
contents or the final contents. -/
def atomicReplace (old : List Nat) (ops : List FileWriteOp) : Prop :=
  ∀ k, runFileWriteOps old (ops.take k) = old ∨
       runFileWriteOps old (ops.take k) = runFileWriteOps old ops

/-- The Python method str.isdigit, over ASCII digits. -/
def pyIsDigit (s : String) : Bool :=
  !s.data.isEmpty && s.data.all Char.isDigit

/-- The Python int constructor applied to a digit string. -/
def pyParseNat (s : String) : Nat :=
  s.data.foldl (fun acc c => acc * 10 + (c.toNat - 48)) 0

/-- prompt_user_to_choose_active_device (configure.py lines 31 to 54).  The
first component is the Configuration written by save_configuration_to_file
(none when nothing is written); the second is the returned device, or the
message of the raised LinkplayCliDeviceNotFoundException.  An empty list
raises at line 33 before anything is written.  A single device is chosen
as index 0 without consulting the user (lines 35 to 37); the userInput
argument models the input() call of the multi-device branch (line 45),
accepted when it is a digit string between 0 and len(devices) - 1. -/
def prompt_user_to_choose_active_device (devices : List Device) (userInput : String) :
    Option Configuration × Except String Device :=
  if devices.isEmpty then (none, .error "No devices to choose from.")
  else
    let chosen : Option Nat :=
      if devices.length = 1 then some 0
      else if pyIsDigit userInput ∧ pyParseNat userInput ≤ devices.length - 1 then
        some (pyParseNat userInput)
      else none
    match chosen with
    | some i =>
      let d := devices.getD i default
      (some { devices := devices, active_device := some d }, .ok d)
    | none => (none, .error "Invalid device choice.")

/-! ## Network call sites and their timeouts -/

/-- A network call site of a command channel, together with the timeout in
seconds that the source passes to it, if any. -/
structure NetworkCallSite where
  channel : String
  operation : String
  timeoutSeconds : Option Nat
deriving DecidableEq, Repr

/-- utils.py line 49: requests.get is called with
timeout=config.get_request_timeout_seconds. -/
def httpGetRequestCall : NetworkCallSite :=
  { channel := "http", operation := "requests.get",
    timeoutSeconds := some get_request_timeout_seconds }

/-- tcp_uart.py line 29: socket.create_connection is called without a
timeout argument, so the connection attempt blocks with no bound. -/
def tcpUartConnectCall : NetworkCallSite :=
  { channel := "tcp_uart", operation := "socket.create_connection",
    timeoutSeconds := none }

/-- tcp_uart.py line 41: socket.recv on a socket for which no settimeout
was ever issued, so the read blocks with no bound. -/
def tcpUartRecvCall : NetworkCallSite :=
  { channel := "tcp_uart", operation := "socket.recv",
    timeoutSeconds := none }

/-- Every network call site of the HTTP command channel and of the binary
TCP-UART command channel. -/
def commandChannelNetworkCalls : List NetworkCallSite :=
  [httpGetRequestCall, tcpUartConnectCall, tcpUartRecvCall]

/-! ## Lemmas about the UTF-8 model -/

/-- One step equation of the fuel-driven decoder when the head sequence
decodes. -/
theorem utf8DecodeAux_succ_cons_some (f b : Nat) (bs : List Nat) (c : Nat) (rest : List Nat)
    (h : utf8DecodeOne (b :: bs) = some (c, rest)) :
    utf8DecodeAux (f + 1) (b :: bs) = (utf8DecodeAux f rest).map (fun cs => c :: cs) := by
  rw [utf8DecodeAux, h]

/-- The result of the fuel-driven decoder does not depend on the exact
amount of fuel, as long as the fuel covers the stream length. -/
theorem utf8DecodeAux_congr (f1 : Nat) :
    ∀ (f2 : Nat) (l : List Nat), l.length ≤ f1 → l.length ≤ f2 →
      utf8DecodeAux f1 l = utf8DecodeAux f2 l := by
  induction f1 with
  | zero =>
    intro f2 l h1 h2
    cases l with
    | nil => cases f2 <;> rfl
    | cons b bs => simp at h1
  | succ f ih =>
    intro f2 l h1 h2
    cases l with
    | nil => cases f2 <;> rfl
    | cons b bs =>
      cases f2 with
      | zero => simp at h2
      | succ f2 =>
        cases hone : utf8DecodeOne (b :: bs) with
        | none => rw [utf8DecodeAux, utf8DecodeAux, hone]
        | some pr =>
          obtain ⟨c, rest⟩ := pr
          have hlen := utf8DecodeOne_rest_length _ _ _ hone
          simp only [List.length_cons] at h1 h2 hlen
          rw [utf8DecodeAux_succ_cons_some f b bs c rest hone,
              utf8DecodeAux_succ_cons_some f2 b bs c rest hone]
          rw [ih f2 rest (by omega) (by omega)]

/-- The encoding of a scalar value is never the empty byte list. -/
theorem utf8EncodeChar_ne_nil (c : Nat) : utf8EncodeChar c ≠ [] := by
  rw [utf8EncodeChar]
  split_ifs <;> simp

/-- Decoding one scalar value from a stream that starts with the encoding
of a valid scalar value yields that value and the untouched remainder. -/
theorem utf8DecodeOne_encodeChar_append (c : Nat) (hc : Nat.isValidChar c) (bs : List Nat) :
    utf8DecodeOne (utf8EncodeChar c ++ bs) = some (c, bs) := by
  have hlt : c < 1114112 := by
    rcases hc with h | h
    · omega
    · omega
  have hsur : c < 55296 ∨ 57344 ≤ c := by
    rcases hc with h | h
    · left; omega
    · right; omega
  by_cases h1 : c < 128
  · rw [utf8EncodeChar, if_pos h1]
    simp only [List.cons_append, List.nil_append]
    rw [utf8DecodeOne, if_pos h1]
  · by_cases h2 : c < 2048
    · rw [utf8EncodeChar, if_neg h1, if_pos h2]
      simp only [List.cons_append, List.nil_append]
      rw [utf8DecodeOne]
      simp only [List.getD_cons_zero, List.getD_cons_succ, List.length_cons,
        List.drop_succ_cons, List.drop_zero]
      rw [if_neg (by omega), if_neg (by omega), if_pos (by omega), if_pos (by omega)]
      simp only [Option.some.injEq, Prod.mk.injEq]
      exact ⟨by omega, by trivial⟩
    · by_cases h3 : c < 65536
      · rw [utf8EncodeChar, if_neg h1, if_neg h2, if_pos h3]
        simp only [List.cons_append, List.nil_append]
        rw [utf8DecodeOne]
        simp only [List.getD_cons_zero, List.getD_cons_succ, List.length_cons,
          List.drop_succ_cons, List.drop_zero]
        rw [if_neg (by omega), if_neg (by omega), if_neg (by omega), if_pos (by omega),
            if_pos (by omega), if_pos (by omega)]
        simp only [Option.some.injEq, Prod.mk.injEq]
        exact ⟨by omega, by trivial⟩
      · rw [utf8EncodeChar, if_neg h1, if_neg h2, if_neg h3]
        simp only [List.cons_append, List.nil_append]
        rw [utf8DecodeOne]
        simp only [List.getD_cons_zero, List.getD_cons_succ, List.length_cons,
          List.drop_succ_cons, List.drop_zero]
        rw [if_neg (by omega), if_neg (by omega), if_neg (by omega), if_neg (by omega),
            if_pos (by omega), if_pos (by omega), if_pos (by omega)]
        simp only [Option.some.injEq, Prod.mk.injEq]
        exact ⟨by omega, by trivial⟩

/-- Decoding a UTF-8 stream that starts with the encoding of one valid
Unicode scalar value first yields that value. -/
theorem utf8Decode_encodeChar_append (c : Nat) (hc : Nat.isValidChar c) (bs : List Nat) :
    utf8Decode (utf8EncodeChar c ++ bs) = (utf8Decode bs).map (fun cs => c :: cs) := by
  have hone := utf8DecodeOne_encodeChar_append c hc bs
  have h3 : 1 ≤ (utf8EncodeChar c).length := by
    cases hx : utf8EncodeChar c with
    | nil => exact absurd hx (utf8EncodeChar_ne_nil c)
    | cons y ys => simp
  cases henc : utf8EncodeChar c ++ bs with
  | nil => exact absurd (List.append_eq_nil.mp henc).1 (utf8EncodeChar_ne_nil c)
  | cons b t =>
    rw [henc] at hone
    have hlen : bs.length ≤ t.length := by
      have h1 : (utf8EncodeChar c ++ bs).length = t.length + 1 := by rw [henc]; simp
      simp only [List.length_append] at h1
      omega
    rw [utf8Decode, utf8Decode]
    simp only [List.length_cons]
    rw [utf8DecodeAux_succ_cons_some t.length b t c bs hone]
    rw [utf8DecodeAux_congr t.length bs.length bs hlen (Nat.le_refl _)]

/-- UTF-8 decoding inverts UTF-8 encoding on lists of valid Unicode scalar
values. -/
theorem utf8Decode_utf8Encode (cs : List Nat) (h : ∀ c ∈ cs, Nat.isValidChar c) :
    utf8Decode (utf8Encode cs) = some cs := by
  induction cs with
  | nil => rfl
  | cons c cs ih =>
    rw [utf8Encode, utf8Decode_encodeChar_append c (h c (List.mem_cons_self c cs))]
    rw [ih (fun x hx => h x (List.mem_cons_of_mem c hx))]
    rfl

/-- The modelled Python codec round trip: decoding the UTF-8 bytes of a
string gives the string back. -/
theorem pyDecodeUtf8_pyEncodeUtf8 (s : String) : pyDecodeUtf8 (pyEncodeUtf8 s) = some s := by
  rw [pyDecodeUtf8, pyEncodeUtf8]
  rw [utf8Decode_utf8Encode]
  · show some (String.mk ((s.data.map Char.toNat).map Char.ofNat)) = some s
    rw [List.map_map]
    have hco : Char.ofNat ∘ Char.toNat = id := by
      funext ch
      exact Char.ofNat_toNat ch
    rw [hco, List.map_id]
  · intro c hc
    obtain ⟨ch, _, rfl⟩ := List.mem_map.mp hc
    exact ch.valid

/-! ## Lemmas about the TCP-UART framing codec -/

/-- Reassembling a 32-bit value from its little-endian bytes. -/
theorem int32ulParseBytes_int32ulBytes (n : Nat) (h : n < 4294967296) :
    int32ulParseBytes (n % 256) (n / 256 % 256) (n / 65536 % 256) (n / 16777216 % 256) = n := by
  rw [int32ulParseBytes]
  omega

/-- The explicit byte string produced by a successful struct build. -/
theorem TCP_UART_MESSAGE_STRUCT_build_eq (p : List Nat)
    (hl : p.length < 4294967296) (hs : p.sum < 4294967296) :
    TCP_UART_MESSAGE_STRUCT_build p =
      some (TCP_UART_MAGIC ++ int32ulBytes p.length ++ int32ulBytes p.sum ++
            [0, 0, 0, 0, 0, 0, 0, 0] ++ p) := by
  rw [TCP_UART_MESSAGE_STRUCT_build, int32ulBuild, int32ulBuild, if_pos hl, if_pos hs]

/-- Parsing a well-formed frame checks the magic, recovers the declared
length, reads that many payload bytes and compares the transmitted checksum
with the recomputed additive payload sum. -/
theorem TCP_UART_MESSAGE_STRUCT_parse_frame (lenVal ckVal : Nat) (q : List Nat)
    (hlen : lenVal < 4294967296) (hck : ckVal < 4294967296) (hq : q.length = lenVal) :
    TCP_UART_MESSAGE_STRUCT_parse
        (TCP_UART_MAGIC ++ int32ulBytes lenVal ++ int32ulBytes ckVal ++
         [0, 0, 0, 0, 0, 0, 0, 0] ++ q) =
      if q.sum = ckVal then .ok q else .error .integrityChecksumMismatch := by
  rw [TCP_UART_MAGIC, int32ulBytes, int32ulBytes]
  simp only [List.cons_append, List.nil_append]
  rw [TCP_UART_MESSAGE_STRUCT_parse]
  rw [if_pos (by rw [TCP_UART_MAGIC])]
  rw [int32ulParseBytes_int32ulBytes lenVal hlen, int32ulParseBytes_int32ulBytes ckVal hck]
  rw [if_neg (by omega)]
  rw [← hq, List.take_length]

/-- Inversion of a successful struct build: the payload length and additive
sum fit in 32 bits and the message has the fixed frame layout. -/
theorem TCP_UART_MESSAGE_STRUCT_build_some (p msg : List Nat)
    (h : TCP_UART_MESSAGE_STRUCT_build p = some msg) :
    p.length < 4294967296 ∧ p.sum < 4294967296 ∧
      msg = TCP_UART_MAGIC ++ int32ulBytes p.length ++ int32ulBytes p.sum ++
            [0, 0, 0, 0, 0, 0, 0, 0] ++ p := by
  rw [TCP_UART_MESSAGE_STRUCT_build, int32ulBuild, int32ulBuild] at h
  by_cases h1 : p.length < 4294967296
  · rw [if_pos h1] at h
    by_cases h2 : p.sum < 4294967296
    · rw [if_pos h2] at h
      exact ⟨h1, h2, (Option.some.inj h).symm⟩
    · rw [if_neg h2] at h
      exact Option.noConfusion h
  · rw [if_neg h1] at h
    by_cases h2 : p.sum < 4294967296
    · rw [if_pos h2] at h
      exact Option.noConfusion h
    · rw [if_neg h2] at h
      exact Option.noConfusion h

/-- Replacing one byte strictly inside a list changes its additive sum. -/
theorem sum_set_ne (p : List Nat) (i v : Nat) (hi : i < p.length)
    (hne : v ≠ p.getD i 0) : (p.set i v).sum ≠ p.sum := by
  have hdecomp : p.sum = (p.take i).sum + p.getD i 0 + (p.drop (i + 1)).sum := by
    conv_lhs => rw [← List.take_append_drop i p]
    rw [List.sum_append, List.drop_eq_getElem_cons hi, List.sum_cons,
      List.getD_eq_getElem p 0 hi]
    omega
  have hset : (p.set i v).sum = (p.take i).sum + v + (p.drop (i + 1)).sum := by
    rw [List.sum_set, if_pos hi]
  omega

/-! ## Claims about the binary protocol codec -/

/-- C1: for every valid command string s, decoding the result of encoding s
over the binary protocol codec returns s itself: the command is UTF-8
encoded, framed by TCP_UART_MESSAGE_STRUCT, and parsing the frame and
UTF-8 decoding the transported payload yields the original string.  The
hypotheses state that the payload length and its additive byte sum fit the
32-bit wire fields, which is what makes the command encodable at all. -/
theorem claim_C1_codec_roundtrip (s : String)
    (hl : (pyEncodeUtf8 s).length < 4294967296) (hs : (pyEncodeUtf8 s).sum < 4294967296) :
    (encodeTcpUartCommand s).bind decodeTcpUartResponse = some s := by
  have hparse := TCP_UART_MESSAGE_STRUCT_parse_frame (pyEncodeUtf8 s).length
    (pyEncodeUtf8 s).sum (pyEncodeUtf8 s) hl hs rfl
  rw [if_pos rfl] at hparse
  rw [encodeTcpUartCommand, TCP_UART_MESSAGE_STRUCT_build_eq _ hl hs]
  show decodeTcpUartResponse
    (TCP_UART_MAGIC ++ int32ulBytes (pyEncodeUtf8 s).length ++
     int32ulBytes (pyEncodeUtf8 s).sum ++ [0, 0, 0, 0, 0, 0, 0, 0] ++
     pyEncodeUtf8 s) = some s
  rw [decodeTcpUartResponse, hparse]
  exact pyDecodeUtf8_pyEncodeUtf8 s

/-- Witness for C1 at the concrete command OK. -/
theorem claim_C1_codec_roundtrip_witness :
    ((pyEncodeUtf8 "OK").length < 4294967296 ∧ (pyEncodeUtf8 "OK").sum < 4294967296) ∧
      (encodeTcpUartCommand "OK").bind decodeTcpUartResponse = some "OK" :=
  ⟨⟨by decide, by decide⟩, claim_C1_codec_roundtrip "OK" (by decide) (by decide)⟩

/-- C2: encode UTF-8-encodes the command as the payload, sets the length
field to the payload byte count, computes the checksum field as the
additive sum of payload bytes mod 2 ^ 32, and emits magic, length,
checksum, 8 zero reserved bytes, then the payload, all multi-byte integers
little-endian (the spec-worded specEncodeMessage); in particular for the
payload of OK, the bytes 0x4F 0x4B, the length field is 2 and the checksum
field is 0x9A = 154. -/
theorem claim_C2_encode_structure (s : String)
    (hl : (pyEncodeUtf8 s).length < 4294967296) (hs : (pyEncodeUtf8 s).sum < 4294967296) :
    encodeTcpUartCommand s = some (specEncodeMessage (pyEncodeUtf8 s)) ∧
      encodeTcpUartCommand "OK" =
        some (TCP_UART_MAGIC ++ [2, 0, 0, 0] ++ [154, 0, 0, 0] ++
              [0, 0, 0, 0, 0, 0, 0, 0] ++ [79, 75]) := by
  constructor
  · rw [encodeTcpUartCommand, TCP_UART_MESSAGE_STRUCT_build_eq _ hl hs]
    rw [specEncodeMessage, specChecksum, specLittleEndian4, specLittleEndian4,
      int32ulBytes, int32ulBytes, Nat.mod_eq_of_lt hs]
  · decide

/-- Witness for C2 at the concrete command OK. -/
theorem claim_C2_encode_structure_witness :
    ((pyEncodeUtf8 "OK").length < 4294967296 ∧ (pyEncodeUtf8 "OK").sum < 4294967296) ∧
      encodeTcpUartCommand "OK" = some (specEncodeMessage (pyEncodeUtf8 "OK")) :=
  ⟨⟨by decide, by decide⟩, (claim_C2_encode_structure "OK" (by decide) (by decide)).1⟩

/-- C3: for every command string s and every position i inside the payload
of the encoded message, replacing the payload byte at i with any different
byte value makes the parse fail with the checksum-mismatch integrity
error; the corrupted payload is never returned.  The payload starts at
offset 20 of the frame, after the 4 magic, 4 length, 4 checksum and 8
reserved bytes. -/
theorem claim_C3_corruption_detected (s : String) (msg : List Nat)
    (hmsg : encodeTcpUartCommand s = some msg) (i v : Nat)
    (hi : i < (pyEncodeUtf8 s).length) (_hv : v < 256)
    (hne : v ≠ (pyEncodeUtf8 s).getD i 0) :
    TCP_UART_MESSAGE_STRUCT_parse (msg.set (20 + i) v) =
      .error .integrityChecksumMismatch := by
  obtain ⟨hl, hs, hmsgeq⟩ := TCP_UART_MESSAGE_STRUCT_build_some _ _ hmsg
  subst hmsgeq
  have hheader : (TCP_UART_MAGIC ++ int32ulBytes (pyEncodeUtf8 s).length ++
      int32ulBytes (pyEncodeUtf8 s).sum ++ [0, 0, 0, 0, 0, 0, 0, 0]).length = 20 := by
    simp [TCP_UART_MAGIC, int32ulBytes]
  rw [List.set_append, hheader, if_neg (by omega)]
  have hsub : 20 + i - 20 = i := by omega
  rw [hsub]
  rw [TCP_UART_MESSAGE_STRUCT_parse_frame (pyEncodeUtf8 s).length (pyEncodeUtf8 s).sum
    ((pyEncodeUtf8 s).set i v) hl hs (by rw [List.length_set])]
  rw [if_neg (sum_set_ne (pyEncodeUtf8 s) i v hi hne)]

/-- Witness for C3: flipping the first payload byte of the encoded OK
command to 0 is detected as a checksum mismatch. -/
theorem claim_C3_corruption_detected_witness :
    (encodeTcpUartCommand "OK" =
        some [24, 150, 24, 32, 2, 0, 0, 0, 154, 0, 0, 0, 0, 0, 0, 0, 0, 0, 0, 0, 79, 75] ∧
      0 < (pyEncodeUtf8 "OK").length ∧ (0 : Nat) < 256 ∧
      (0 : Nat) ≠ (pyEncodeUtf8 "OK").getD 0 0) ∧
      TCP_UART_MESSAGE_STRUCT_parse
          ([24, 150, 24, 32, 2, 0, 0, 0, 154, 0, 0, 0, 0, 0, 0, 0, 0, 0, 0, 0, 79, 75].set 20 0) =
        .error .integrityChecksumMismatch :=
  ⟨⟨by decide, by decide, by decide, by decide⟩,
    claim_C3_corruption_detected "OK"
      [24, 150, 24, 32, 2, 0, 0, 0, 154, 0, 0, 0, 0, 0, 0, 0, 0, 0, 0, 0, 79, 75]
      (by decide) 0 0 (by decide) (by decide) (by decide)⟩

/-! ## Claims about the HTTP command channel -/

/-- C4: for every HTTP response whose status is the success status 200, the
exchange classifies as the unknown-command outcome exactly when the
lower-cased body equals the literal unknown command string; and when it
does, the outcome is distinct from the transport-failure error and from
every successful return. -/
theorem claim_C4_unknown_command_iff (r : HttpResponse) (h : r.status = 200) :
    (perform_get_request (some r) = .error .unknownCommand ↔
      pyStrLower r.body = UNKNOWN_COMMAND_STRING) ∧
    (pyStrLower r.body = UNKNOWN_COMMAND_STRING →
      perform_get_request (some r) ≠ .error .requestFailed ∧
      ∀ t, perform_get_request (some r) ≠ .ok t) := by
  constructor
  · rw [perform_get_request, if_neg (by simp [h])]
    by_cases hb : pyStrLower r.body = UNKNOWN_COMMAND_STRING
    · rw [if_pos hb]
      simp [hb]
    · rw [if_neg hb]
      simp [hb]
  · intro hb
    rw [perform_get_request, if_neg (by simp [h]), if_pos hb]
    exact ⟨by simp, fun t => by simp⟩

/-- Witness for C4: a 200 response whose body is the unknown-command
literal in mixed letter case classifies as the unknown-command outcome. -/
theorem claim_C4_unknown_command_iff_witness :
    (HttpResponse.mk 200 "Unknown COMMAND").status = 200 ∧
      perform_get_request (some (HttpResponse.mk 200 "Unknown COMMAND")) =
        .error .unknownCommand :=
  ⟨rfl, (claim_C4_unknown_command_iff (HttpResponse.mk 200 "Unknown COMMAND") rfl).1.mpr
    (by decide)⟩

/-- C9 counterexample: a 204 No Content response has a 2xx status, yet
perform_get_request classifies it as the transport-failure error, because
the source compares the status with HTTPStatus.OK = 200, not with the whole
2xx class. -/
theorem claim_C9_counterexample :
    perform_get_request (some (HttpResponse.mk 204 "No Content")) =
        .error .requestFailed ∧
      200 ≤ 204 ∧ 204 ≤ 299 :=
  ⟨rfl, by omega, by omega⟩

/-- C9 amended: the HTTP exchange classifies as the transport-failure error
exactly when the connection fails or the response status differs from 200
(HTTPStatus.OK); every 200 response is treated as reaching the device,
its body then inspected for the unknown-command sentinel or returned. -/
theorem claim_C9_request_failed_iff (resp : Option HttpResponse) :
    perform_get_request resp = .error .requestFailed ↔
      (resp = none ∨ ∃ r, resp = some r ∧ r.status ≠ 200) := by
  cases resp with
  | none => simp [perform_get_request]
  | some r =>
    rw [perform_get_request]
    by_cases hst : r.status = 200
    · rw [if_neg (by simp [hst])]
      by_cases hb : pyStrLower r.body = UNKNOWN_COMMAND_STRING
      · rw [if_pos hb]
        simp [hst]
      · rw [if_neg hb]
        simp [hst]
    · rw [if_pos hst]
      simp [hst]

/-! ## Claims about discovery, the registry and device selection -/

/-- C5, evaluated at the failing input: a candidate whose very first probe
(http on port 80) returns a valid status payload makes the function raise
AttributeError instead of producing a descriptor, because the success path
reads the undefined config.default_tcp_uart_port (and would next pass the
undeclared upnp_location keyword to the Device dataclass); a candidate for
which every probe fails is discarded as None without raising. -/
theorem claim_C5_discovery_eval :
    getValidLinkplayDeviceConfiguration
        (fun _ _ => some (GetStatusExResponse.mk "UP2STREAM_MINI" "Speaker" none))
        "10.0.0.5" = .error .attributeError ∧
      getValidLinkplayDeviceConfiguration (fun _ _ => none) "10.0.0.5" = .ok none :=
  ⟨rfl, rfl⟩

/-- C6 counterexample: load_configuration_from_file catches only
FileNotFoundError, so a corrupted record raises UnpicklingError and an
unreadable file raises PermissionError; neither returns the empty
configuration. -/
theorem claim_C6_counterexample :
    load_configuration_from_file .corrupted = .error .unpicklingError ∧
      load_configuration_from_file .unreadable = .error .permissionError ∧
      load_configuration_from_file .corrupted ≠
        .ok (Configuration.mk [] none) :=
  ⟨rfl, rfl, fun hcon => Except.noConfusion hcon⟩

/-- C6 amended: load returns the empty state when the file is absent, and
returns the stored configuration when it is valid; an unreadable file or a
corrupted record instead raises the underlying exception. -/
theorem claim_C6_load_behaviour :
    load_configuration_from_file .absent = .ok (Configuration.mk [] none) ∧
      load_configuration_from_file .unreadable = .error .permissionError ∧
      load_configuration_from_file .corrupted = .error .unpicklingError ∧
      ∀ c, load_configuration_from_file (.valid c) = .ok c :=
  ⟨rfl, rfl, rfl, fun _ => rfl⟩

/-- C7 counterexample: the save trace truncates in place before writing, so
after its first operation the file holds neither the old record 1 nor the
new record 2, violating atomic replacement. -/
theorem claim_C7_counterexample :
    ¬ atomicReplace [1] (save_configuration_to_file_trace [2]) := by
  intro h
  exact absurd (h 1) (by decide)

/-- C7 amended: a completed save leaves exactly the new record, but the
intermediate state after the truncating open is the empty file, so an
interrupted save can destroy the previous record; the write is in place,
not write-to-temp-then-rename. -/
theorem claim_C7_save_in_place :
    (∀ (old record : List Nat),
        runFileWriteOps old (save_configuration_to_file_trace record) = record) ∧
      (∀ (old record : List Nat),
        runFileWriteOps old ((save_configuration_to_file_trace record).take 1) = []) := by
  constructor
  · intro old record
    rfl
  · intro old record
    rfl

/-- C8 counterexample: not every network call site of the command channels
carries the configured 5-second timeout; the binary channel connect and
recv calls carry none. -/
theorem claim_C8_counterexample :
    ¬ ∀ call ∈ commandChannelNetworkCalls,
        call.timeoutSeconds = some get_request_timeout_seconds := by
  decide

/-- C8 amended: the HTTP channel GET request is bounded by the configured
5-second timeout, while the binary channel TCP connection establishment
and response read have no timeout configured at all. -/
theorem claim_C8_timeouts :
    httpGetRequestCall.timeoutSeconds = some get_request_timeout_seconds ∧
      get_request_timeout_seconds = 5 ∧
      tcpUartConnectCall.timeoutSeconds = none ∧
      tcpUartRecvCall.timeoutSeconds = none :=
  ⟨rfl, rfl, rfl, rfl⟩

/-- C10: with exactly one validated device the selection returns that
device for every possible user input, never consulting it, and persists
the whole list with that device active; with an empty list it raises the
device-not-found error and nothing is written. -/
theorem claim_C10_selection :
    (∀ (d : Device) (input : String),
        prompt_user_to_choose_active_device [d] input =
          (some (Configuration.mk [d] (some d)), .ok d)) ∧
      (∀ input : String,
        prompt_user_to_choose_active_device [] input =
          (none, .error "No devices to choose from.")) := by
  constructor
  · intro d input
    rfl
  · intro input
    rfl

end LinkplayCli
